import Mathlib

/-!
Verification development for the SeniorCare backend (src/backend/app.py).

The FastAPI endpoints are embedded shallowly:
  * The external Supabase store is modelled as an explicit `DB` value holding
    the three tables (seniors, medications, reminder_logs).  An endpoint that
    reads or writes the store takes a `Option DB`: `none` models any adapter
    failure (missing credentials, a raised client error), `some db` the
    success path over table contents `db`.
  * `date.today()` and `datetime.now()` are passed in as explicit `today` /
    `taken_at` string parameters.
  * Python floats are modelled as exact rationals; `round(x, 1)` is modelled
    by exact round-half-to-even at one decimal.
  * The AI / translation providers are modelled by oracle functions in an
    `Env` record; `Option String` responses distinguish a successful HTTP
    response body from a raised exception or non-200 status.
-/

namespace SeniorCare

/-- Row of the seniors table (spec section 3). -/
structure Senior where
  id : Nat
  name : String
  emergency_info : String
deriving Repr, DecidableEq

/-- Row of the medications table (spec section 3). -/
structure Medication where
  id : Nat
  name : String
  dosage : String
  time : String
  frequency : String
  pill_color : String
  senior_id : Nat
  is_active : Bool
deriving Repr, DecidableEq

/-- Row of the reminder_logs table (spec section 3). -/
structure ReminderLog where
  medication_id : Nat
  status : String
  taken_on : String
  taken_at : String
deriving Repr, DecidableEq

/-- The three tables owned by the external persistence adapter. -/
structure DB where
  seniors : List Senior
  medications : List Medication
  reminder_logs : List ReminderLog
deriving Repr, DecidableEq

/-- Body of POST /acknowledge (app.py class AcknowledgeRequest): the caller
supplies only a medication id and a status string; there is no field for a
date. -/
structure AcknowledgeRequest where
  medication_id : Nat
  status : String
deriving Repr, DecidableEq

/-- Result of GET /adherence-summary. -/
structure AdherenceSummary where
  total : Nat
  taken : Nat
  percentage : ℚ
deriving Repr, DecidableEq

/-- The fixed record returned by the except branch of get_senior
(app.py line 172). -/
def fallbackSenior : Senior :=
  { id := 1, name := "Senior User", emergency_info := "Call 911 in case of emergency." }

/-- GET senior-by-id endpoint (app.py lines 165-172).  The query
`.eq("id", senior_id).single()` returns the row when exactly one row matches
and raises otherwise; the bare except turns every failure (missing client,
raised query, no row) into the fixed fallback record. -/
def get_senior (db : Option DB) (senior_id : Nat) : Senior :=
  match db with
  | none => fallbackSenior
  | some d =>
    match d.seniors.filter (fun s => s.id == senior_id) with
    | [s] => s
    | _ => fallbackSenior

/-- The medications query shared by GET /medications, GET /today-schedule and
GET /adherence-summary: rows with the given senior_id and is_active true, in
table order. -/
def activeMedications (d : DB) (senior_id : Nat) : List Medication :=
  d.medications.filter (fun m => m.senior_id == senior_id && m.is_active)

/-- GET /medications (app.py lines 183-189): active rows for the senior, or
the empty list on any adapter failure. -/
def get_medications (db : Option DB) (senior_id : Nat) : List Medication :=
  match db with
  | none => []
  | some d => activeMedications d senior_id

/-- The store after the update of app.py line 211: is_active set to false on
every medications row whose id matches, everything else untouched. -/
def softDeleted (d : DB) (med_id : Nat) : DB :=
  { d with medications :=
      d.medications.map (fun m =>
        if m.id == med_id then { m with is_active := false } else m) }

/-- DELETE medication-by-id endpoint (app.py lines 208-214): update
is_active to false on every row whose id matches, answer a fixed status
object; adapter failure becomes HTTP 500 (the error case). -/
def delete_medication (db : Option DB) (med_id : Nat) : Except Unit (String × DB) :=
  match db with
  | none => Except.error ()
  | some d => Except.ok ("deleted", softDeleted d med_id)

/-- The reminder_logs query of GET /today-schedule: rows whose taken_on equals
today, in table order (app.py line 226). -/
def todayLogs (d : DB) (today : String) : List ReminderLog :=
  d.reminder_logs.filter (fun l => l.taken_on == today)

/-- The Python dict comprehension on app.py line 227 keyed by medication_id:
a later row with the same key overwrites an earlier one, so lookup yields the
last matching row. -/
def logLookup (logs : List ReminderLog) (med_id : Nat) : Option ReminderLog :=
  (logs.filter (fun l => l.medication_id == med_id)).getLast?

/-- GET /today-schedule (app.py lines 217-236): each active medication of the
senior paired with the dict lookup of today's logs at its id; the empty list
on any adapter failure. -/
def get_today_schedule (db : Option DB) (today : String) (senior_id : Nat) :
    List (Medication × Option ReminderLog) :=
  match db with
  | none => []
  | some d =>
    (activeMedications d senior_id).map
      (fun m => (m, logLookup (todayLogs d today) m.id))

/-- The conflict key on_conflict medication_id,taken_on of app.py line 248,
as a test on a row. -/
def sameKey (i : Nat) (dt : String) (l : ReminderLog) : Bool :=
  l.medication_id == i && l.taken_on == dt

/-- Model of the store's upsert with on_conflict medication_id,taken_on, as
invoked on app.py line 248: when a row with the same conflict key exists it is
replaced in place, otherwise the new row is appended. -/
def upsertLog (logs : List ReminderLog) (row : ReminderLog) : List ReminderLog :=
  if logs.any (sameKey row.medication_id row.taken_on) then
    logs.map (fun l => if sameKey row.medication_id row.taken_on l then row else l)
  else
    logs ++ [row]

/-- The row POST /acknowledge builds on app.py lines 242-247: the request's
medication id and status, plus the server's current date and timestamp — the
request body has no field that could supply taken_on. -/
def ackRow (today taken_at : String) (req : AcknowledgeRequest) : ReminderLog :=
  { medication_id := req.medication_id, status := req.status,
    taken_on := today, taken_at := taken_at }

/-- The store after the upsert of app.py line 248. -/
def ackDB (d : DB) (today taken_at : String) (req : AcknowledgeRequest) : DB :=
  { d with reminder_logs := upsertLog d.reminder_logs (ackRow today taken_at req) }

/-- POST /acknowledge (app.py lines 238-251): builds the row from the request
plus the server's current date and timestamp, upserts it on the
(medication_id, taken_on) conflict key, and answers the persisted row;
adapter failure becomes HTTP 500 (the error case). -/
def acknowledge_med (db : Option DB) (today taken_at : String) (req : AcknowledgeRequest) :
    Except Unit (ReminderLog × DB) :=
  match db with
  | none => Except.error ()
  | some d => Except.ok (ackRow today taken_at req, ackDB d today taken_at req)

/-- Number of reminder_logs rows carrying a given conflict key. -/
def countKey (logs : List ReminderLog) (i : Nat) (dt : String) : Nat :=
  (logs.filter (sameKey i dt)).length

/-- At most one reminder_logs row per (medication_id, taken_on) pair — the
uniqueness invariant of spec section 3. -/
def UniqueKeys (logs : List ReminderLog) : Prop :=
  logs.Pairwise (fun a b => ¬(a.medication_id = b.medication_id ∧ a.taken_on = b.taken_on))

/-- Round-half-to-even on rationals, the rounding mode of Python's round. -/
def roundHalfEven (q : ℚ) : ℤ :=
  let f : ℤ := ⌊q⌋
  let frac : ℚ := q - f
  if frac < 1 / 2 then f
  else if 1 / 2 < frac then f + 1
  else if f % 2 = 0 then f else f + 1

/-- Python round(x, 1) on an exact rational. -/
def round1 (q : ℚ) : ℚ :=
  (roundHalfEven (q * 10) : ℚ) / 10

/-- The reminder_logs query of GET /adherence-summary (app.py line 260): rows
whose taken_on equals today with status "taken" — with no filter on the
senior, on the medication's owner, or on the medication being active. -/
def takenLogsToday (d : DB) (today : String) : List ReminderLog :=
  d.reminder_logs.filter (fun l => l.taken_on == today && l.status == "taken")

/-- GET /adherence-summary (app.py lines 253-266): total counts the senior's
active medications, taken counts today's "taken" logs (unscoped), percentage
is taken over total times 100 rounded to one decimal when total is positive
and 100 otherwise; any adapter failure yields the all-zero summary. -/
def get_adherence_summary (db : Option DB) (today : String) (senior_id : Nat) :
    AdherenceSummary :=
  match db with
  | none => { total := 0, taken := 0, percentage := 0 }
  | some d =>
    let total_meds := (activeMedications d senior_id).length
    let taken_meds := (takenLogsToday d today).length
    let percentage : ℚ :=
      if 0 < total_meds then (taken_meds : ℚ) / (total_meds : ℚ) * 100 else 100
    { total := total_meds, taken := taken_meds, percentage := round1 percentage }

/-- Python's str.strip(): the text with leading and trailing whitespace
removed, computed structurally over the character list. -/
def pyStrip (s : String) : String :=
  String.mk (((s.data.dropWhile Char.isWhitespace).reverse.dropWhile
    Char.isWhitespace).reverse)

/-- External-provider environment for the translate pipeline: the configured
credentials and oracle functions standing for the provider responses.
`lingoResponse` is the value extracted from a 200 response of the dedicated
translation provider (`none` for a non-200 status, a raised exception, or a
response carrying none of the expected fields).  `lmSimplify` / `lmTranslate`
are the language-model chat responses (`none` models the API call raising).
`simplifyClientFails` / `translateClientFails` model the language-model
client constructor raising, which in app.py sits outside the inner try of
openai_simplify (line 109) and openai_translate (line 129). -/
structure Env where
  LINGO_API_KEY : String
  LINGO_PROJECT_ID : String
  OPENAI_API_KEY : String
  simplifyClientFails : Bool
  translateClientFails : Bool
  lingoResponse : String → String → Option String
  lmSimplify : String → Option String
  lmTranslate : String → String → Option String

/-- The language_names lookup table of openai_translate (app.py line 130). -/
def language_names : List (String × String) :=
  [("hi", "Hindi"), ("ta", "Tamil"), ("te", "Telugu"), ("bn", "Bengali"),
   ("ml", "Malayalam"), ("mr", "Marathi"), ("or", "Odia"), ("es", "Spanish"),
   ("fr", "French"), ("ar", "Arabic"), ("en", "English")]

/-- The display name used in the translation prompt:
language_names.get(target, target) (app.py line 131). -/
def targetName (target : String) : String :=
  (language_names.lookup target).getD target

/-- call_lingo_translate (app.py lines 89-103): None when either project
credential is missing, otherwise the provider's response (every failure
inside the try is caught and becomes None). -/
def call_lingo_translate (env : Env) (text target : String) : Option String :=
  if env.LINGO_API_KEY == "" || env.LINGO_PROJECT_ID == "" then none
  else env.lingoResponse text target

/-- openai_simplify (app.py lines 105-123): passes the text through when no
language-model key is configured; raises when the client constructor fails
(it sits outside the try); otherwise answers the stripped model response, or
the input text when the API call raises. -/
def openai_simplify (env : Env) (text : String) : Except Unit String :=
  if env.OPENAI_API_KEY == "" then Except.ok text
  else if env.simplifyClientFails then Except.error ()
  else
    match env.lmSimplify text with
    | some s => Except.ok (pyStrip s)
    | none => Except.ok text

/-- openai_translate (app.py lines 125-141): passes the text through when no
language-model key is configured; raises when the client constructor fails
(it sits outside the try); otherwise answers the stripped model response for
the prompt naming the target language, or the input text when the API call
raises. -/
def openai_translate (env : Env) (text target : String) : Except Unit String :=
  if env.OPENAI_API_KEY == "" then Except.ok text
  else if env.translateClientFails then Except.error ()
  else
    match env.lmTranslate text (targetName target) with
    | some s => Except.ok (pyStrip s)
    | none => Except.ok text

/-- Errors surfaced by POST /translate: the 400 for empty text, and an
unhandled exception escaping the endpoint (HTTP 500). -/
inductive ApiError where
  | badRequest
  | serverError
deriving Repr, DecidableEq

/-- Body of the response of POST /translate.  The provider-none branch of
app.py line 162 carries no quality field, modelled by `none`. -/
structure TranslateResponse where
  translated_text : String
  target_lang : String
  provider : String
  quality : Option String
deriving Repr, DecidableEq

/-- The fallback half of POST /translate (app.py lines 158-162): try the
language-model translation of the simplified text and tag it "openai"; if
that call raises, answer the stripped original text tagged "none". -/
def translateFallback (env : Env) (text simplified target : String) :
    Except ApiError TranslateResponse :=
  match openai_translate env simplified target with
  | Except.ok tr =>
    Except.ok { translated_text := tr, target_lang := target,
                provider := "openai", quality := some "senior-simplified" }
  | Except.error _ =>
    Except.ok { translated_text := text, target_lang := target,
                provider := "none", quality := none }

/-- POST /translate (app.py lines 148-162): reject empty stripped text with a
400; simplify first (an exception there escapes the endpoint); offer the
simplified text to the dedicated translation provider and answer its result
tagged "lingo.dev" when it is truthy (present and non-empty); otherwise fall
back to the language-model translation. -/
def translate (env : Env) (req_text req_target : String) :
    Except ApiError TranslateResponse :=
  let text := pyStrip req_text
  let target := pyStrip req_target
  if text == "" then Except.error ApiError.badRequest
  else
    match openai_simplify env text with
    | Except.error _ => Except.error ApiError.serverError
    | Except.ok simplified =>
      match call_lingo_translate env simplified target with
      | some t =>
        if t == "" then translateFallback env text simplified target
        else
          Except.ok { translated_text := t, target_lang := target,
                      provider := "lingo.dev", quality := some "senior-simplified" }
      | none => translateFallback env text simplified target

/-! Concrete fixtures used by witnesses and counterexamples. -/

/-- One active medication of senior 1. -/
def medAspirin : Medication :=
  { id := 1, name := "Aspirin", dosage := "1", time := "08:00",
    frequency := "daily", pill_color := "white", senior_id := 1, is_active := true }

/-- A senior row. -/
def seniorAlice : Senior :=
  { id := 1, name := "Alice", emergency_info := "Call family." }

/-- A store where senior 1 has one active medication with no log for it, while
two reminder logs dated 2026-01-02 with status "taken" belong to other
medication ids (2 and 3). -/
def dbForeignLogs : DB :=
  { seniors := [seniorAlice],
    medications := [medAspirin],
    reminder_logs :=
      [ { medication_id := 2, status := "taken", taken_on := "2026-01-02", taken_at := "a" },
        { medication_id := 3, status := "taken", taken_on := "2026-01-02", taken_at := "b" } ] }

/-- A store with no rows at all. -/
def dbEmpty : DB :=
  { seniors := [], medications := [], reminder_logs := [] }

/-- An acknowledge request marking medication 5 taken. -/
def reqTaken : AcknowledgeRequest := { medication_id := 5, status := "taken" }

/-- A second acknowledge request for the same medication, marking it missed. -/
def reqMissed : AcknowledgeRequest := { medication_id := 5, status := "missed" }

/-- Environment with no credential configured: every provider key empty, no
client-constructor failure, all provider calls failing. -/
def envNone : Env :=
  { LINGO_API_KEY := "", LINGO_PROJECT_ID := "", OPENAI_API_KEY := "",
    simplifyClientFails := false, translateClientFails := false,
    lingoResponse := fun _ _ => none,
    lmSimplify := fun _ => none,
    lmTranslate := fun _ _ => none }

/-- Environment with only the language-model credential configured and the
model answering fixed non-empty texts. -/
def envOpenai : Env :=
  { LINGO_API_KEY := "", LINGO_PROJECT_ID := "", OPENAI_API_KEY := "sk-demo",
    simplifyClientFails := false, translateClientFails := false,
    lingoResponse := fun _ _ => none,
    lmSimplify := fun _ => some "Take your pill.",
    lmTranslate := fun _ _ => some "Dawai lijiye." }

/-- Environment with the dedicated translation provider configured and
answering a fixed non-empty text, and no language-model credential. -/
def envLingo : Env :=
  { LINGO_API_KEY := "lk", LINGO_PROJECT_ID := "lp", OPENAI_API_KEY := "",
    simplifyClientFails := false, translateClientFails := false,
    lingoResponse := fun _ _ => some "namaste",
    lmSimplify := fun _ => none,
    lmTranslate := fun _ _ => none }

end SeniorCare

namespace SeniorCare

/-- C7: on any persistence-adapter failure, get_adherence_summary answers the
all-zero summary (total 0, taken 0, percentage 0), not an error and not the
100 used for zero medications on the success path. -/
theorem adherence_failure_all_zero (today : String) (senior_id : Nat) :
    get_adherence_summary none today senior_id
      = { total := 0, taken := 0, percentage := 0 } := rfl

/-- C1: on the success path, the summary's total is the count of the senior's
active medications, taken is the count of today's "taken" logs, and the
percentage is 100 when that count of active medications is zero and otherwise
taken over total times 100 rounded to one decimal. -/
theorem adherence_percentage_formula (d : DB) (today : String) (senior_id : Nat) :
    (get_adherence_summary (some d) today senior_id).total
        = (activeMedications d senior_id).length ∧
    (get_adherence_summary (some d) today senior_id).taken
        = (takenLogsToday d today).length ∧
    (get_adherence_summary (some d) today senior_id).percentage =
      (if (activeMedications d senior_id).length = 0 then 100
       else round1 (((get_adherence_summary (some d) today senior_id).taken : ℚ) /
            ((get_adherence_summary (some d) today senior_id).total : ℚ) * 100)) := by
  refine ⟨rfl, rfl, ?_⟩
  by_cases h : (activeMedications d senior_id).length = 0
  · simp [get_adherence_summary, h, round1, roundHalfEven]
    norm_num
  · simp [get_adherence_summary, h, Nat.pos_of_ne_zero h]

/-- C2: the taken count of get_adherence_summary is not scoped to the senior's
active medications.  In dbForeignLogs, senior 1 has one active medication and
no log for it, yet the two "taken" logs of foreign medication ids are counted:
the summary is total 1, taken 2, percentage 200, so taken exceeds total and
the percentage exceeds 100. -/
theorem adherence_counts_foreign_logs :
    get_adherence_summary (some dbForeignLogs) "2026-01-02" 1
        = { total := 1, taken := 2, percentage := 200 } ∧
    (get_adherence_summary (some dbForeignLogs) "2026-01-02" 1).total
      < (get_adherence_summary (some dbForeignLogs) "2026-01-02" 1).taken := by
  have h1 : activeMedications dbForeignLogs 1 = [medAspirin] := rfl
  have h2 : takenLogsToday dbForeignLogs "2026-01-02" = dbForeignLogs.reminder_logs := rfl
  have e : get_adherence_summary (some dbForeignLogs) "2026-01-02" 1
      = { total := 1, taken := 2, percentage := 200 } := by
    simp only [get_adherence_summary, h1, h2]
    norm_num [dbForeignLogs, round1, roundHalfEven]
  exact ⟨e, by rw [e]; exact Nat.one_lt_two⟩

/-- C4: on the success path, get_today_schedule has one entry per active
medication of the senior (in store order); an entry's annotation, when
present, is one of the store's logs for that medication id dated today, and
it is absent exactly when the store has no log for that medication id dated
today; on adapter failure the schedule is the empty sequence. -/
theorem today_schedule_left_join (d : DB) (today : String) (senior_id : Nat) :
    (get_today_schedule (some d) today senior_id).map Prod.fst
        = activeMedications d senior_id ∧
    (∀ p ∈ get_today_schedule (some d) today senior_id,
      (∀ l, p.2 = some l →
        l.medication_id = p.1.id ∧ l.taken_on = today ∧ l ∈ d.reminder_logs) ∧
      (p.2 = none →
        ∀ l ∈ d.reminder_logs, ¬(l.medication_id = p.1.id ∧ l.taken_on = today))) ∧
    get_today_schedule none today senior_id = [] := by
  refine ⟨?_, ?_, rfl⟩
  · simp only [get_today_schedule, List.map_map]
    exact List.map_id _
  · intro p hp
    simp only [get_today_schedule, List.mem_map] at hp
    obtain ⟨m, hm, rfl⟩ := hp
    refine ⟨?_, ?_⟩
    · intro l hl
      simp only [logLookup] at hl
      have hmem := List.mem_of_mem_getLast? hl
      simp only [todayLogs, List.mem_filter, beq_iff_eq] at hmem
      exact ⟨hmem.2, hmem.1.2, hmem.1.1⟩
    · intro hnone l hl hcontra
      simp only [logLookup, List.getLast?_eq_none_iff, List.filter_eq_nil_iff] at hnone
      refine hnone l ?_ ?_
      · simp [todayLogs, List.mem_filter, hcontra.2, hl]
      · simp [hcontra.1]

/-- C6: soft-deleting reports the fixed success object and flips is_active on
the matching row only: the id vanishes from every subsequent active-medication
listing, reminder logs and seniors are untouched, rows with other ids are kept
as they are, the operation is idempotent, and only an adapter failure yields
the error. -/
theorem delete_medication_soft_delete (d : DB) (i : Nat) :
    delete_medication (some d) i = Except.ok ("deleted", softDeleted d i) ∧
    (softDeleted d i).reminder_logs = d.reminder_logs ∧
    (softDeleted d i).seniors = d.seniors ∧
    (∀ senior_id : Nat, ∀ m ∈ get_medications (some (softDeleted d i)) senior_id, ¬ m.id = i) ∧
    (∀ m ∈ d.medications, ¬ m.id = i → m ∈ (softDeleted d i).medications) ∧
    softDeleted (softDeleted d i) i = softDeleted d i ∧
    delete_medication none i = Except.error () := by
  have hstep : ∀ m : Medication,
      (fun m => if m.id == i then { m with is_active := false } else m)
        ((fun m => if m.id == i then { m with is_active := false } else m) m)
      = (fun m => if m.id == i then { m with is_active := false } else m) m := by
    intro m
    by_cases h : m.id == i
    · simp [h]
    · simp [h]
  refine ⟨rfl, rfl, rfl, ?_, ?_, ?_, rfl⟩
  · intro sid m hm
    simp only [get_medications, activeMedications, softDeleted, List.mem_filter,
      List.mem_map] at hm
    obtain ⟨⟨m0, hm0, rfl⟩, hact⟩ := hm
    by_cases h : m0.id == i
    · simp [h] at hact
    · simp only [h, if_neg, Bool.false_eq_true, ite_false]
      intro hc
      exact absurd (by simp [hc] : (m0.id == i) = true) (by simp [h])
  · intro m hm hne
    simp only [softDeleted, List.mem_map]
    refine ⟨m, hm, ?_⟩
    simp [hne]
  · simp only [softDeleted, List.map_map, Function.comp]
    exact congrArg (fun l => { d with medications := l }) (List.map_congr_left
      (fun m _ => hstep m))

/-- C9: missing persistence credentials (or any adapter failure, including no
row found) put the reads in demo-fallback mode: the senior endpoint answers
the fixed demo profile and the medications listing the empty sequence, never
an error. -/
theorem get_senior_demo_fallback (d : DB) (senior_id : Nat)
    (h : d.seniors.filter (fun s => s.id == senior_id) = []) :
    get_senior none senior_id = fallbackSenior ∧
    get_senior (some d) senior_id = fallbackSenior ∧
    get_medications none senior_id = [] := by
  refine ⟨rfl, ?_, rfl⟩
  simp [get_senior, h]

/-- C9 witness: in dbForeignLogs no row has senior id 2, so the fallback
profile is returned both without credentials and on the empty query. -/
theorem get_senior_demo_fallback_witness :
    get_senior none 2 = fallbackSenior ∧
    get_senior (some dbForeignLogs) 2 = fallbackSenior ∧
    get_medications none 2 = [] :=
  get_senior_demo_fallback dbForeignLogs 2 (by decide)

/-- Unfolding of the conflict-key test. -/
theorem sameKey_eq_true {i : Nat} {dt : String} {l : ReminderLog} :
    sameKey i dt l = true ↔ l.medication_id = i ∧ l.taken_on = dt := by
  simp [sameKey]

/-- The upsert preserves the at-most-one-row-per-conflict-key invariant. -/
theorem uniqueKeys_upsertLog (logs : List ReminderLog) (row : ReminderLog)
    (h : UniqueKeys logs) : UniqueKeys (upsertLog logs row) := by
  unfold upsertLog
  by_cases hany : logs.any (sameKey row.medication_id row.taken_on) = true
  · rw [if_pos hany]
    unfold UniqueKeys at h ⊢
    rw [List.pairwise_map]
    refine h.imp ?_
    intro a b hab
    by_cases ha : sameKey row.medication_id row.taken_on a = true
      <;> by_cases hb : sameKey row.medication_id row.taken_on b = true
    · obtain ⟨a1, a2⟩ := sameKey_eq_true.mp ha
      obtain ⟨b1, b2⟩ := sameKey_eq_true.mp hb
      exact absurd ⟨a1.trans b1.symm, a2.trans b2.symm⟩ hab
    · rw [if_pos ha, if_neg hb]
      intro hk
      exact hb (sameKey_eq_true.mpr ⟨hk.1.symm, hk.2.symm⟩)
    · rw [if_neg ha, if_pos hb]
      intro hk
      exact ha (sameKey_eq_true.mpr ⟨hk.1, hk.2⟩)
    · rw [if_neg ha, if_neg hb]
      exact hab
  · rw [if_neg hany]
    unfold UniqueKeys at h ⊢
    rw [List.pairwise_append]
    refine ⟨h, List.pairwise_singleton _ _, ?_⟩
    intro a ha b hb
    rw [List.mem_singleton] at hb
    subst hb
    have hfalse := List.any_eq_false.mp (Bool.eq_false_iff.mpr hany) a ha
    intro hk
    exact hfalse (sameKey_eq_true.mpr ⟨hk.1, hk.2⟩)

/-- Replacing each key-matching entry by the new row (which matches the key)
does not change how many entries match the key. -/
theorem filter_replace_length (logs : List ReminderLog) (row : ReminderLog) :
    ((logs.map (fun l => if sameKey row.medication_id row.taken_on l then row else l)).filter
        (sameKey row.medication_id row.taken_on)).length
      = (logs.filter (sameKey row.medication_id row.taken_on)).length := by
  have hrow : sameKey row.medication_id row.taken_on row = true := by simp [sameKey]
  induction logs with
  | nil => rfl
  | cons a t ih =>
    by_cases ha : sameKey row.medication_id row.taken_on a = true
    · simp [List.filter_cons, ha, hrow, ih]
    · simp [List.filter_cons, ha, ih]

/-- Under the uniqueness invariant, a key that occurs occurs on exactly one
row. -/
theorem filter_length_of_unique (logs : List ReminderLog) (i : Nat) (dt : String)
    (h : UniqueKeys logs) (hany : logs.any (sameKey i dt) = true) :
    (logs.filter (sameKey i dt)).length = 1 := by
  induction logs with
  | nil => simp at hany
  | cons a t ih =>
    unfold UniqueKeys at h
    rw [List.pairwise_cons] at h
    obtain ⟨hhead, htail⟩ := h
    by_cases ha : sameKey i dt a = true
    · have hnil : t.filter (sameKey i dt) = [] := by
        rw [List.filter_eq_nil_iff]
        intro b hb hbkey
        obtain ⟨e1, e2⟩ := sameKey_eq_true.mp hbkey
        obtain ⟨f1, f2⟩ := sameKey_eq_true.mp ha
        exact hhead b hb ⟨f1.trans e1.symm, f2.trans e2.symm⟩
      simp [List.filter_cons, ha, hnil]
    · have htany : t.any (sameKey i dt) = true := by
        rcases List.any_eq_true.mp hany with ⟨x, hx, hxkey⟩
        rcases List.mem_cons.mp hx with hxa | hxt
        · exact absurd (hxa ▸ hxkey) ha
        · exact List.any_eq_true.mpr ⟨x, hxt, hxkey⟩
      simp [List.filter_cons, ha, ih htail htany]

/-- When the conflict key is already present, the upsert replaces in place and
the table keeps its length. -/
theorem upsertLog_length_of_any (logs : List ReminderLog) (row : ReminderLog)
    (hany : logs.any (sameKey row.medication_id row.taken_on) = true) :
    (upsertLog logs row).length = logs.length := by
  simp [upsertLog, hany]

/-- A key counted once is present. -/
theorem any_of_countKey_one (logs : List ReminderLog) (i : Nat) (dt : String)
    (h : countKey logs i dt = 1) : logs.any (sameKey i dt) = true := by
  by_contra hc
  have hnil : logs.filter (sameKey i dt) = [] :=
    List.filter_eq_nil_iff.mpr (List.any_eq_false.mp (Bool.eq_false_iff.mpr hc))
  rw [countKey, hnil] at h
  simp at h

/-- Exactly one row per conflict key after the upsert that wrote that key. -/
theorem countKey_upsertLog_self (logs : List ReminderLog) (row : ReminderLog)
    (h : UniqueKeys logs) :
    countKey (upsertLog logs row) row.medication_id row.taken_on = 1 := by
  have hrow : sameKey row.medication_id row.taken_on row = true := by simp [sameKey]
  unfold upsertLog countKey
  by_cases hany : logs.any (sameKey row.medication_id row.taken_on) = true
  · rw [if_pos hany, filter_replace_length]
    exact filter_length_of_unique logs _ _ h hany
  · rw [if_neg hany, List.filter_append]
    have hnil : logs.filter (sameKey row.medication_id row.taken_on) = [] :=
      List.filter_eq_nil_iff.mpr (List.any_eq_false.mp (Bool.eq_false_iff.mpr hany))
    simp [hnil, hrow]

/-- After an upsert, every row carrying the written conflict key is the row
just written. -/
theorem mem_upsertLog_key (logs : List ReminderLog) (row : ReminderLog) :
    ∀ l ∈ upsertLog logs row, sameKey row.medication_id row.taken_on l = true → l = row := by
  intro l hl hkey
  unfold upsertLog at hl
  by_cases hany : logs.any (sameKey row.medication_id row.taken_on) = true
  · rw [if_pos hany] at hl
    rcases List.mem_map.mp hl with ⟨x, hx, rfl⟩
    by_cases hxk : sameKey row.medication_id row.taken_on x = true
    · rw [if_pos hxk]
    · rw [if_neg hxk] at hkey ⊢
      exact absurd hkey hxk
  · rw [if_neg hany] at hl
    rcases List.mem_append.mp hl with hlog | hrow
    · exact absurd hkey (List.any_eq_false.mp (Bool.eq_false_iff.mpr hany) l hlog)
    · rw [List.mem_singleton] at hrow
      exact hrow

/-- C5: the persisted log row carries the server's date (the request body has
no date field), the uniqueness invariant on (medication_id, taken_on) is
preserved, the written key occurs exactly once, and a second acknowledgment of
the same medication on the same date keeps the table's length, keeps the key
unique, and leaves the second request's row as the only row under that key. -/
theorem acknowledge_upsert_semantics (d : DB) (today t1 t2 : String)
    (req req2 : AcknowledgeRequest) (hmed : req2.medication_id = req.medication_id)
    (huniq : UniqueKeys d.reminder_logs) :
    acknowledge_med (some d) today t1 req
        = Except.ok (ackRow today t1 req, ackDB d today t1 req) ∧
    (ackRow today t1 req).taken_on = today ∧
    (ackRow today t1 req).medication_id = req.medication_id ∧
    (ackRow today t1 req).status = req.status ∧
    UniqueKeys (ackDB d today t1 req).reminder_logs ∧
    countKey (ackDB d today t1 req).reminder_logs req.medication_id today = 1 ∧
    (ackDB (ackDB d today t1 req) today t2 req2).reminder_logs.length
        = (ackDB d today t1 req).reminder_logs.length ∧
    countKey (ackDB (ackDB d today t1 req) today t2 req2).reminder_logs
        req.medication_id today = 1 ∧
    (∀ l ∈ (ackDB (ackDB d today t1 req) today t2 req2).reminder_logs,
      l.medication_id = req.medication_id → l.taken_on = today → l = ackRow today t2 req2) ∧
    acknowledge_med none today t1 req = Except.error () := by
  have huniq1 : UniqueKeys (ackDB d today t1 req).reminder_logs :=
    uniqueKeys_upsertLog _ _ huniq
  have hcount1 : countKey (ackDB d today t1 req).reminder_logs req.medication_id today = 1 :=
    countKey_upsertLog_self d.reminder_logs (ackRow today t1 req) huniq
  have hany1 : (ackDB d today t1 req).reminder_logs.any (sameKey req.medication_id today)
      = true := any_of_countKey_one _ _ _ hcount1
  refine ⟨rfl, rfl, rfl, rfl, huniq1, hcount1, ?_, ?_, ?_, rfl⟩
  · apply upsertLog_length_of_any
    show (ackDB d today t1 req).reminder_logs.any (sameKey req2.medication_id today) = true
    rw [hmed]
    exact hany1
  · have h4 : countKey (ackDB (ackDB d today t1 req) today t2 req2).reminder_logs
        req2.medication_id today = 1 :=
      countKey_upsertLog_self (ackDB d today t1 req).reminder_logs
        (ackRow today t2 req2) huniq1
    rw [hmed] at h4
    exact h4
  · intro l hl h5 h6
    exact mem_upsertLog_key (ackDB d today t1 req).reminder_logs (ackRow today t2 req2)
      l hl (sameKey_eq_true.mpr ⟨h5.trans hmed.symm, h6⟩)

/-- C5 witness: acknowledging medication 5 as taken and then as missed on the
same date in the empty store succeeds and leaves exactly one row under the
(5, date) key. -/
theorem acknowledge_upsert_semantics_witness :
    acknowledge_med (some dbEmpty) "2026-01-02" "a" reqTaken
        = Except.ok (ackRow "2026-01-02" "a" reqTaken,
                     ackDB dbEmpty "2026-01-02" "a" reqTaken) ∧
    countKey (ackDB (ackDB dbEmpty "2026-01-02" "a" reqTaken) "2026-01-02" "b"
        reqMissed).reminder_logs 5 "2026-01-02" = 1 := by
  have h := acknowledge_upsert_semantics dbEmpty "2026-01-02" "a" "b" reqTaken reqMissed
    rfl List.Pairwise.nil
  exact ⟨h.1, h.2.2.2.2.2.2.2.1⟩

/-- C10: the fallback path of the senior endpoint is constant: its result
carries id 1 whatever id was requested, and when neither the requested id nor
id 1 has a row, requesting the one is indistinguishable from requesting the
other. -/
theorem get_senior_fallback_is_constant (d : DB) (sid sid2 : Nat)
    (h1 : d.seniors.filter (fun s => s.id == sid) = [])
    (h2 : d.seniors.filter (fun s => s.id == 1) = []) :
    (get_senior none sid).id = 1 ∧
    get_senior none sid = get_senior none sid2 ∧
    get_senior (some d) sid = get_senior (some d) 1 ∧
    get_senior (some d) sid = fallbackSenior := by
  refine ⟨rfl, rfl, ?_, ?_⟩
  · simp [get_senior, h1, h2]
  · simp [get_senior, h1]

/-- C3 counterexample: with neither credential configured, the translate
pipeline does return the original text, but tagged provider "openai", not
provider "none" as the claim states: the language-model helper passes the
text through without raising when its key is missing, so the provider-"none"
branch is not reached. -/
theorem translate_no_credentials_tag :
    translate envNone "text" "hi"
        = Except.ok { translated_text := "text", target_lang := "hi",
                      provider := "openai", quality := some "senior-simplified" } ∧
    ¬ translate envNone "text" "hi"
        = Except.ok { translated_text := "text", target_lang := "hi",
                      provider := "none", quality := none } := by
  have e : translate envNone "text" "hi"
      = Except.ok { translated_text := "text", target_lang := "hi",
                    provider := "openai", quality := some "senior-simplified" } := rfl
  refine ⟨e, ?_⟩
  intro hcon
  rw [e] at hcon
  exact absurd (Except.ok.inj hcon) (by decide)

/-- C3 (amended): on non-empty input with no translation-provider credential,
when the language-model credential is absent the response is the original
(stripped) text tagged provider "openai"; when it is configured, its client
initializes and its responses strip to non-empty text, the response is a
non-empty string tagged provider "openai". -/
theorem translate_provider_tags (env : Env) (text target : String)
    (h0 : ¬ pyStrip text = "")
    (hlingo : env.LINGO_API_KEY = "" ∨ env.LINGO_PROJECT_ID = "") :
    (env.OPENAI_API_KEY = "" →
      translate env text target
        = Except.ok { translated_text := pyStrip text, target_lang := pyStrip target,
                      provider := "openai", quality := some "senior-simplified" }) ∧
    (¬ env.OPENAI_API_KEY = "" →
      env.simplifyClientFails = false →
      env.translateClientFails = false →
      (∀ s, env.lmSimplify (pyStrip text) = some s → ¬ pyStrip s = "") →
      (∀ s n r, env.lmTranslate s n = some r → ¬ pyStrip r = "") →
      ∃ r, translate env text target = Except.ok r ∧
        r.provider = "openai" ∧ ¬ r.translated_text = "") := by
  have h0' : (pyStrip text == "") = false := by simp [h0]
  have hlingoNone : ∀ s t, call_lingo_translate env s t = none := by
    intro s t
    rcases hlingo with h | h <;> simp [call_lingo_translate, h]
  constructor
  · intro hkey
    simp [translate, h0', hlingoNone, translateFallback, openai_simplify,
      openai_translate, hkey]
  · intro hkey hsf htf hs ht
    have hk : (env.OPENAI_API_KEY == "") = false := by simp [hkey]
    cases hcase : env.lmSimplify (pyStrip text) with
    | none =>
      cases hcase2 : env.lmTranslate (pyStrip text) (targetName (pyStrip target)) with
      | none =>
        refine ⟨{ translated_text := pyStrip text, target_lang := pyStrip target,
                  provider := "openai", quality := some "senior-simplified" },
                ?_, rfl, h0⟩
        simp [translate, h0', hlingoNone, translateFallback, openai_simplify,
          openai_translate, hk, hsf, htf, hcase, hcase2]
      | some r =>
        refine ⟨{ translated_text := pyStrip r, target_lang := pyStrip target,
                  provider := "openai", quality := some "senior-simplified" },
                ?_, rfl, ht _ _ _ hcase2⟩
        simp [translate, h0', hlingoNone, translateFallback, openai_simplify,
          openai_translate, hk, hsf, htf, hcase, hcase2]
    | some s =>
      cases hcase2 : env.lmTranslate (pyStrip s) (targetName (pyStrip target)) with
      | none =>
        refine ⟨{ translated_text := pyStrip s, target_lang := pyStrip target,
                  provider := "openai", quality := some "senior-simplified" },
                ?_, rfl, hs s hcase⟩
        simp [translate, h0', hlingoNone, translateFallback, openai_simplify,
          openai_translate, hk, hsf, htf, hcase, hcase2]
      | some r =>
        refine ⟨{ translated_text := pyStrip r, target_lang := pyStrip target,
                  provider := "openai", quality := some "senior-simplified" },
                ?_, rfl, ht _ _ _ hcase2⟩
        simp [translate, h0', hlingoNone, translateFallback, openai_simplify,
          openai_translate, hk, hsf, htf, hcase, hcase2]

/-- C3 witness: the no-credential branch at envNone, and the
language-model-only branch at envOpenai, both on the non-empty input
"text". -/
theorem translate_provider_tags_witness :
    translate envNone "text" "hi"
        = Except.ok { translated_text := "text", target_lang := "hi",
                      provider := "openai", quality := some "senior-simplified" } ∧
    ∃ r, translate envOpenai "text" "hi" = Except.ok r ∧
      r.provider = "openai" ∧ ¬ r.translated_text = "" := by
  constructor
  · exact (translate_provider_tags envNone "text" "hi" (by decide) (Or.inl rfl)).1 rfl
  · refine (translate_provider_tags envOpenai "text" "hi" (by decide) (Or.inl rfl)).2
      (by decide) rfl rfl ?_ ?_
    · intro s hs
      cases hs
      decide
    · intro s n r hr
      cases hr
      decide

/-- C8: simplification runs before any translation — the dedicated provider is
offered the simplify stage's output — and when that provider returns a usable
(non-empty) result it is returned tagged provider "lingo.dev", whatever the
language-model translation oracle would answer. -/
theorem translate_lingo_precedence (env : Env) (text target simplified t : String)
    (h0 : ¬ pyStrip text = "")
    (hsimp : openai_simplify env (pyStrip text) = Except.ok simplified)
    (hlingo : call_lingo_translate env simplified (pyStrip target) = some t)
    (ht : ¬ t = "") :
    translate env text target
      = Except.ok { translated_text := t, target_lang := pyStrip target,
                    provider := "lingo.dev", quality := some "senior-simplified" } := by
  have h0' : (pyStrip text == "") = false := by simp [h0]
  have ht' : (t == "") = false := by simp [ht]
  simp [translate, h0', hsimp, hlingo, ht']

/-- C8 witness: with the dedicated provider configured and answering
"namaste", translating "hello" is tagged lingo.dev and carries that answer. -/
theorem translate_lingo_precedence_witness :
    translate envLingo "hello" "hi"
      = Except.ok { translated_text := "namaste", target_lang := "hi",
                    provider := "lingo.dev", quality := some "senior-simplified" } :=
  translate_lingo_precedence envLingo "hello" "hi" "hello" "namaste"
    (by decide) rfl rfl (by decide)

/-- C10 witness: in the empty store, senior ids 7 and 1 are both absent and
the endpoint's answers coincide, carrying id 1. -/
theorem get_senior_fallback_is_constant_witness :
    (get_senior none 7).id = 1 ∧
    get_senior none 7 = get_senior none 9 ∧
    get_senior (some dbEmpty) 7 = get_senior (some dbEmpty) 1 ∧
    get_senior (some dbEmpty) 7 = fallbackSenior :=
  get_senior_fallback_is_constant dbEmpty 7 9 (by decide) (by decide)

end SeniorCare
